import Mathlib

set_option maxRecDepth 40000

/-!
# Verification of the HowLongToBeat scraper (src/hltb_scraper.py)

Shallow embedding of the two core functions of the repository:

* `scrape_hltb_game` (the fetcher): one network fetch with retry on
  connectivity faults, returning a decoded game record or the Python
  value None, or propagating an uncaught parse exception.
* `scrape_bulk` (the crawl controller): the sequential crawl loop with a
  consecutive-404 counter, periodic checkpointing and a guarded final
  save.

External collaborators (the requests library, the string search of the
embedded script block, json.loads and json.dump) are modelled at their
observable boundary: each network attempt is an oracle value recording
the status code, whether the two markers were found in the body, and the
result of parsing the extracted slice; the destination file holds the
last list of records dumped to it.
-/

/-- JSON-decoded Python values, as produced by json.loads: None, bools,
numbers, strings, lists and dicts (dicts as key-value lists; keys of a
decoded dict are unique). -/
inductive Json where
  | null
  | bool (b : Bool)
  | num (n : Int)
  | str (s : String)
  | arr (xs : List Json)
  | obj (fields : List (String × Json))

/-- Python truthiness of a JSON-decoded value: None, False, 0, the empty
string, the empty list and the empty dict are falsy, everything else is
truthy. -/
def jsonTruthy : Json → Bool
  | Json.null => false
  | Json.bool b => b
  | Json.num n => n != 0
  | Json.str s => s != ""
  | Json.arr [] => false
  | Json.arr (_ :: _) => true
  | Json.obj [] => false
  | Json.obj (_ :: _) => true

/-- Auxiliary for the Python substring test `pat in s` on strings. -/
def subAux (pat : List Char) : List Char → Bool
  | [] => pat.isEmpty
  | b :: bs => pat.isPrefixOf (b :: bs) || subAux pat bs

/-- Python membership test `col in j` for a string `col` and a
JSON-decoded value `j`. Returns none when Python would raise a TypeError
(membership test on None, a bool or a number). On a dict it tests keys,
on a list it tests elements (only a string element can equal `col`), on
a string it is the substring test. -/
def pyIn (col : String) (j : Json) : Option Bool :=
  match j with
  | Json.obj fields => some (fields.any (fun p => p.1 == col))
  | Json.arr xs => some (xs.any (fun x => match x with | Json.str s => s == col | _ => false))
  | Json.str s => some (subAux col.data s.data)
  | _ => none

/-- One pass of the metadata-removal loop body of scrape_hltb_game:
`if col in game_data: del game_data[col]`. Returns none when Python
raises (TypeError on the membership test, or `del` applied to a
non-dict). Deleting a key from a dict removes its single entry; on the
key-value-list model with unique keys this is the filter below. -/
def pyDelStep (j : Json) (col : String) : Option Json :=
  match pyIn col j with
  | none => none
  | some false => some j
  | some true =>
    match j with
    | Json.obj fields => some (Json.obj (fields.filter (fun p => p.1 != col)))
    | _ => none

/-- The `for col in ["individuality", "relationships"]` removal loop of
scrape_hltb_game; none models an uncaught exception. -/
def stripLoop (j : Json) : List String → Option Json
  | [] => some j
  | c :: cs =>
    match pyDelStep j c with
    | none => none
    | some j2 => stripLoop j2 cs

/-- Python dict subscript `j[k]`: some value when `j` is a dict holding
the key, none when Python raises (KeyError on a dict without the key,
TypeError on a non-dict). -/
def jsonGetKey (j : Json) (k : String) : Option Json :=
  match j with
  | Json.obj fields =>
    match fields.find? (fun p => p.1 == k) with
    | some p => some p.2
    | none => none
  | _ => none

/-- The nested path data["props"]["pageProps"]["game"]["data"] of
scrape_hltb_game; none models an uncaught KeyError or TypeError. -/
def extractGameData (data : Json) : Option Json :=
  match jsonGetKey data "props" with
  | none => none
  | some a =>
    match jsonGetKey a "pageProps" with
    | none => none
    | some b =>
      match jsonGetKey b "game" with
      | none => none
      | some c => jsonGetKey c "data"

/-- Outcome of one requests.get call inside scrape_hltb_game, at the
boundary of the external collaborators:
`status` is the HTTP status code; `hasStart` and `hasEnd` record whether
the find of the opening script-data marker and the rfind of the closing
script-tag marker succeeded (the code only compares them with -1);
`slice` is the result of json.loads on the extracted slice (none when
json.loads raises). `connectionFault` is a raised
requests ConnectionError or Timeout. -/
inductive AttemptResult where
  | response (status : Nat) (hasStart : Bool) (hasEnd : Bool) (slice : Option Json)
  | connectionFault

/-- What scrape_hltb_game does with control: return a Python value
(a record dict, or None), or let an exception escape. Only
ConnectionError and Timeout are caught by the code, so JSONDecodeError,
KeyError and TypeError from the decoding steps propagate as `exn`. -/
inductive FetchResult where
  | ret (v : Option Json)
  | exn

/-- Result of a whole scrape_hltb_game call, together with the number of
cooldown sleeps performed and the number of network requests issued. -/
structure FetchOutput where
  result : FetchResult
  sleeps : Nat
  requests : Nat

/-- Body of one successful-request iteration of scrape_hltb_game:
404 returns None; a missing marker returns None; then the slice is
parsed, the nested path projected and the two metadata keys removed,
any of which may raise. -/
def processResponse (status : Nat) (hasStart hasEnd : Bool) (slice : Option Json) : FetchResult :=
  if status = 404 then FetchResult.ret none
  else if hasStart && hasEnd then
    match slice with
    | none => FetchResult.exn
    | some data =>
      match extractGameData data with
      | none => FetchResult.exn
      | some gd =>
        match stripLoop gd ["individuality", "relationships"] with
        | none => FetchResult.exn
        | some r => FetchResult.ret (some r)
  else FetchResult.ret none

/-- The retry loop of scrape_hltb_game: `fuel` attempts remain, `i` is
the current attempt index into the oracle, `sleeps` and `reqs`
accumulate. A connectivity fault sleeps the cooldown and retries; when
the attempts are exhausted the code sleeps the cooldown once more and
returns None. -/
def fetchGo (attempts : Nat → AttemptResult) : Nat → Nat → Nat → Nat → FetchOutput
  | 0, _, sleeps, reqs => { result := FetchResult.ret none, sleeps := sleeps + 1, requests := reqs }
  | fuel + 1, i, sleeps, reqs =>
    match attempts i with
    | AttemptResult.connectionFault => fetchGo attempts fuel (i + 1) (sleeps + 1) (reqs + 1)
    | AttemptResult.response st hs he sl =>
      { result := processResponse st hs he sl, sleeps := sleeps, requests := reqs + 1 }

/-- scrape_hltb_game(game_id, max_retries, cooldown_time): the oracle
`attempts` gives the outcome of the i-th network request for this id;
each recorded sleep lasts cooldown_time seconds. -/
def scrape_hltb_game (attempts : Nat → AttemptResult) (max_retries : Nat) : FetchOutput :=
  fetchGo attempts max_retries 0 0 0

/-- The configuration surface of scrape_bulk that the control flow reads
(server_break only sleeps and output_file only names the destination, so
neither affects the modelled state). -/
structure CrawlConfig where
  start_id : Nat
  save_frequency : Nat
  max_consecutive_404s : Nat

/-- State of the scrape_bulk loop: the in-memory accumulator, the
consecutive-404 counter, the id cursor, and the destination file
contents (none while the file has never been written). -/
structure CrawlState where
  results : List Json
  consecutive_404s : Nat
  game_id : Nat
  file : Option (List Json)

/-- The checkpoint step of scrape_bulk, after the id cursor has
advanced: when game_id is a multiple of save_frequency and the current
consecutive-404 count is below save_frequency, json.dump overwrites the
destination with the whole accumulator. -/
def checkpointMaybe (cfg : CrawlConfig) (s : CrawlState) : CrawlState :=
  if s.game_id % cfg.save_frequency = 0 ∧ s.consecutive_404s < cfg.save_frequency then
    { s with file := some s.results }
  else s

/-- One iteration of the while loop of scrape_bulk: fetch the current
id (the oracle `f` gives the value returned by scrape_hltb_game), test
it for truthiness, append and reset or increment, advance the cursor,
then maybe checkpoint. -/
def crawlStep (cfg : CrawlConfig) (f : Nat → Option Json) (s : CrawlState) : CrawlState :=
  match f s.game_id with
  | some gd =>
    if jsonTruthy gd then
      checkpointMaybe cfg { s with results := s.results ++ [gd], consecutive_404s := 0, game_id := s.game_id + 1 }
    else
      checkpointMaybe cfg { s with consecutive_404s := s.consecutive_404s + 1, game_id := s.game_id + 1 }
  | none => checkpointMaybe cfg { s with consecutive_404s := s.consecutive_404s + 1, game_id := s.game_id + 1 }

/-- The guard of the while loop of scrape_bulk: the body runs only
while consecutive_404s < max_consecutive_404s; once the guard fails the
state is left untouched. -/
def crawlGuard (cfg : CrawlConfig) (f : Nat → Option Json) (s : CrawlState) : CrawlState :=
  if s.consecutive_404s < cfg.max_consecutive_404s then crawlStep cfg f s else s

/-- The state of scrape_bulk after `n` guard evaluations of the while
loop: once the guard fails the state is stable, so `crawlRun` at any
larger fuel returns the terminal state of the loop. -/
def crawlRun (cfg : CrawlConfig) (f : Nat → Option Json) : Nat → CrawlState
  | 0 => { results := [], consecutive_404s := 0, game_id := cfg.start_id, file := none }
  | n + 1 => crawlGuard cfg f (crawlRun cfg f n)

/-- The code after the while loop of scrape_bulk: the accumulator is
dumped once more only when consecutive_404s <= save_frequency. -/
def finalFlush (cfg : CrawlConfig) (s : CrawlState) : CrawlState :=
  if s.consecutive_404s ≤ cfg.save_frequency then { s with file := some s.results } else s

/-- scrape_bulk run for `fuel` loop iterations followed by the
final-save logic; when `fuel` is at least the number of iterations the
loop actually performs, this is the state in which scrape_bulk
returns. -/
def scrape_bulk (cfg : CrawlConfig) (f : Nat → Option Json) (fuel : Nat) : CrawlState :=
  finalFlush cfg (crawlRun cfg f fuel)

/-- The one-field record of the all-Found scenario. -/
def foundRec : Json := Json.obj [("name", Json.str "g")]

/-- A fetcher oracle that finds a (truthy) one-field record at every
id: the all-Found scenario of the save_frequency=100 checkpoint claim. -/
def allFoundFetcher : Nat → Option Json := fun _ => some foundRec

/-- A fetcher oracle for which scrape_hltb_game returns None at every
id: the all-absent scenario. -/
def allAbsentFetcher : Nat → Option Json := fun _ => none

/-- The configuration of the checkpoint scenario: start at id 1 with
the shipped defaults save_frequency=100 and max_consecutive_404s=500. -/
def c2Config : CrawlConfig :=
  { start_id := 1, save_frequency := 100, max_consecutive_404s := 500 }

/-- A configuration whose absence ceiling exceeds its save frequency,
as the shipped defaults (500 over 100) and the main invocation (1000
over 100) both do; small numbers keep the run evaluable. -/
def c1Config : CrawlConfig :=
  { start_id := 3, save_frequency := 3, max_consecutive_404s := 5 }

/-- A concrete embedded page payload: the props container wrapping one
game record that still carries the two metadata fields. -/
def c9Payload : Json :=
  Json.obj [("props", Json.obj [("pageProps", Json.obj [("game", Json.obj [("data",
    Json.obj [("name", Json.str "X"), ("individuality", Json.null),
      ("relationships", Json.null)])])])])]

theorem checkpointMaybe_counter (cfg : CrawlConfig) (s : CrawlState) :
    (checkpointMaybe cfg s).consecutive_404s = s.consecutive_404s := by
  unfold checkpointMaybe
  split <;> rfl

theorem checkpointMaybe_game_id (cfg : CrawlConfig) (s : CrawlState) :
    (checkpointMaybe cfg s).game_id = s.game_id := by
  unfold checkpointMaybe
  split <;> rfl

theorem checkpointMaybe_results (cfg : CrawlConfig) (s : CrawlState) :
    (checkpointMaybe cfg s).results = s.results := by
  unfold checkpointMaybe
  split <;> rfl

theorem crawlStep_game_id (cfg : CrawlConfig) (f : Nat → Option Json) (s : CrawlState) :
    (crawlStep cfg f s).game_id = s.game_id + 1 := by
  unfold crawlStep
  split
  · split
    · exact checkpointMaybe_game_id _ _
    · exact checkpointMaybe_game_id _ _
  · exact checkpointMaybe_game_id _ _

theorem crawlStep_counter (cfg : CrawlConfig) (f : Nat → Option Json) (s : CrawlState) :
    (crawlStep cfg f s).consecutive_404s = 0 ∨
      (crawlStep cfg f s).consecutive_404s = s.consecutive_404s + 1 := by
  unfold crawlStep
  split
  · split
    · exact Or.inl (checkpointMaybe_counter _ _)
    · exact Or.inr (checkpointMaybe_counter _ _)
  · exact Or.inr (checkpointMaybe_counter _ _)

theorem crawlRun_succ (cfg : CrawlConfig) (f : Nat → Option Json) (n : Nat) :
    crawlRun cfg f (n + 1) =
      if (crawlRun cfg f n).consecutive_404s < cfg.max_consecutive_404s then
        crawlStep cfg f (crawlRun cfg f n)
      else crawlRun cfg f n := rfl

theorem crawlRun_counter_le (cfg : CrawlConfig) (f : Nat → Option Json) (n : Nat) :
    (crawlRun cfg f n).consecutive_404s ≤ cfg.max_consecutive_404s := by
  induction n with
  | zero => exact Nat.zero_le _
  | succ n ih =>
    rw [crawlRun_succ]
    by_cases h : (crawlRun cfg f n).consecutive_404s < cfg.max_consecutive_404s
    · rw [if_pos h]
      rcases crawlStep_counter cfg f (crawlRun cfg f n) with h0 | h1
      · rw [h0]
        exact Nat.zero_le _
      · rw [h1]
        omega
    · rw [if_neg h]
      exact ih

/-- Claim C5: throughout every crawl run (save_frequency positive, as a
zero save_frequency would raise ZeroDivisionError in the source), the
consecutive-absence counter satisfies
0 <= counter <= max_consecutive_404s, each executed iteration either
resets it to 0 or increments it by exactly 1, and the loop takes a
further step at fuel n exactly when the counter has not reached
max_consecutive_404s: the run is stable at n if and only if the counter
equals the ceiling. -/
theorem c5_counter_invariant_and_termination (cfg : CrawlConfig) (f : Nat → Option Json) (n : Nat)
    (_hsave : 0 < cfg.save_frequency) :
    (crawlRun cfg f n).consecutive_404s ≤ cfg.max_consecutive_404s ∧
    ((crawlRun cfg f (n + 1)).consecutive_404s = 0 ∨
      (crawlRun cfg f (n + 1)).consecutive_404s = (crawlRun cfg f n).consecutive_404s + 1 ∨
      crawlRun cfg f (n + 1) = crawlRun cfg f n) ∧
    (crawlRun cfg f (n + 1) = crawlRun cfg f n ↔
      (crawlRun cfg f n).consecutive_404s = cfg.max_consecutive_404s) := by
  refine ⟨crawlRun_counter_le cfg f n, ?_, ?_, ?_⟩
  · rw [crawlRun_succ]
    by_cases h : (crawlRun cfg f n).consecutive_404s < cfg.max_consecutive_404s
    · rw [if_pos h]
      rcases crawlStep_counter cfg f (crawlRun cfg f n) with h0 | h1
      · exact Or.inl h0
      · exact Or.inr (Or.inl h1)
    · rw [if_neg h]
      exact Or.inr (Or.inr rfl)
  · intro he
    by_cases h : (crawlRun cfg f n).consecutive_404s < cfg.max_consecutive_404s
    · exfalso
      rw [crawlRun_succ, if_pos h] at he
      have hg := congrArg CrawlState.game_id he
      rw [crawlStep_game_id] at hg
      omega
    · have hle := crawlRun_counter_le cfg f n
      omega
  · intro he
    rw [crawlRun_succ, if_neg (by omega)]

/-- Witness for C5 at a concrete configuration, fetcher and step. -/
theorem c5_witness :
    (crawlRun c2Config allAbsentFetcher 0).consecutive_404s ≤ 500 ∧
    ((crawlRun c2Config allAbsentFetcher 1).consecutive_404s = 0 ∨
      (crawlRun c2Config allAbsentFetcher 1).consecutive_404s =
        (crawlRun c2Config allAbsentFetcher 0).consecutive_404s + 1 ∨
      crawlRun c2Config allAbsentFetcher 1 = crawlRun c2Config allAbsentFetcher 0) ∧
    (crawlRun c2Config allAbsentFetcher 1 = crawlRun c2Config allAbsentFetcher 0 ↔
      (crawlRun c2Config allAbsentFetcher 0).consecutive_404s = 500) :=
  c5_counter_invariant_and_termination c2Config allAbsentFetcher 0 (by decide)

/-- Claim C8: after every Found outcome in the crawl loop (the fetcher
returned a truthy value for the current id and the iteration executed),
the consecutive-absence counter equals exactly 0, regardless of its
prior value. -/
theorem c8_found_resets_counter (cfg : CrawlConfig) (f : Nat → Option Json) (n : Nat)
    (_hsave : 0 < cfg.save_frequency)
    (hrun : (crawlRun cfg f n).consecutive_404s < cfg.max_consecutive_404s)
    (gd : Json) (hf : f (crawlRun cfg f n).game_id = some gd) (ht : jsonTruthy gd = true) :
    (crawlRun cfg f (n + 1)).consecutive_404s = 0 := by
  rw [crawlRun_succ, if_pos hrun]
  simp [crawlStep, hf, ht, checkpointMaybe_counter]

/-- Witness for C8: one Found iteration from the initial state. -/
theorem c8_witness :
    (crawlRun c2Config allFoundFetcher 1).consecutive_404s = 0 :=
  c8_found_resets_counter c2Config allFoundFetcher 0 (by decide) (by decide)
    (Json.obj [("name", Json.str "g")]) rfl rfl

/-- Claim C10: when the fetcher returns an empty dict for the current
id, the controller treats it as an absence, because the Found test of
the code is Python truthiness: the counter is incremented and nothing
is appended to the accumulator. -/
theorem c10_empty_dict_counts_as_absence (cfg : CrawlConfig) (f : Nat → Option Json) (n : Nat)
    (_hsave : 0 < cfg.save_frequency)
    (hrun : (crawlRun cfg f n).consecutive_404s < cfg.max_consecutive_404s)
    (hf : f (crawlRun cfg f n).game_id = some (Json.obj [])) :
    (crawlRun cfg f (n + 1)).consecutive_404s = (crawlRun cfg f n).consecutive_404s + 1 ∧
    (crawlRun cfg f (n + 1)).results = (crawlRun cfg f n).results := by
  rw [crawlRun_succ, if_pos hrun]
  constructor
  · simp [crawlStep, hf, jsonTruthy, checkpointMaybe_counter]
  · simp [crawlStep, hf, jsonTruthy, checkpointMaybe_results]

/-- Witness for C10: one empty-dict iteration from the initial state. -/
theorem c10_witness :
    (crawlRun c2Config (fun _ => some (Json.obj [])) 1).consecutive_404s =
      (crawlRun c2Config (fun _ => some (Json.obj [])) 0).consecutive_404s + 1 ∧
    (crawlRun c2Config (fun _ => some (Json.obj [])) 1).results =
      (crawlRun c2Config (fun _ => some (Json.obj [])) 0).results :=
  c10_empty_dict_counts_as_absence c2Config (fun _ => some (Json.obj [])) 0
    (by decide) (by decide) rfl

/-- Claim C1 is a code bug: the final save of scrape_bulk is guarded by
consecutive_404s <= save_frequency, and at loop exit the counter always
equals max_consecutive_404s, so whenever the absence ceiling exceeds
the save frequency the final flush never runs. With start_id=3,
save_frequency=3, max_consecutive_404s=5 and every id absent, the loop
terminates with the counter at the ceiling, the final-save code leaves
the state unchanged, and the destination is never written - there is no
final flush and no on-disk array, contradicting the claimed
unconditional final flush for every configuration. -/
theorem c1_final_flush_skipped :
    (crawlRun c1Config allAbsentFetcher 5).consecutive_404s = c1Config.max_consecutive_404s ∧
    scrape_bulk c1Config allAbsentFetcher 5 = crawlRun c1Config allAbsentFetcher 5 ∧
    (scrape_bulk c1Config allAbsentFetcher 5).file = none :=
  ⟨rfl, rfl, rfl⟩

/-- Claim C2 is false on the code: with save_frequency=100, start_id=1
and every id Found, the iteration that processes id 100 triggers no
checkpoint (the file is unchanged from the previous iteration), and at
that point the file holds the 99 records written by the checkpoint
that fired after id 99 was processed: 99 records, not 100. -/
theorem c2_counterexample :
    ((crawlRun c2Config allFoundFetcher 100).file).map List.length = some 99 ∧
    ((crawlRun c2Config allFoundFetcher 100).file).map List.length ≠ some 100 :=
  ⟨rfl, by decide⟩

/-- Claim C2 amended: the checkpoint test runs after the id cursor has
been advanced, so in the all-Found run starting at id 1 the checkpoint
fires while processing id 99 (the cursor then reads 100): before that
iteration the file has never been written, after it the file holds
exactly 99 records, and the iteration that processes id 100 leaves the
file unchanged. -/
theorem c2_amended_checkpoint_after_id_99 :
    (crawlRun c2Config allFoundFetcher 98).file = none ∧
    (crawlRun c2Config allFoundFetcher 99).file = some (List.replicate 99 foundRec) ∧
    (crawlRun c2Config allFoundFetcher 100).file = some (List.replicate 99 foundRec) :=
  ⟨rfl, rfl, rfl⟩

theorem fetch_404_first (attempts : Nat → AttemptResult) (mr : Nat) (hmr : 0 < mr)
    (hs he : Bool) (sl : Option Json) (h0 : attempts 0 = AttemptResult.response 404 hs he sl) :
    scrape_hltb_game attempts mr =
      { result := FetchResult.ret none, sleeps := 0, requests := 1 } := by
  obtain ⟨k, rfl⟩ : ∃ k, mr = k + 1 := ⟨mr - 1, by omega⟩
  unfold scrape_hltb_game
  simp [fetchGo, h0, processResponse]

theorem fetchGo_all_faults (attempts : Nat → AttemptResult) :
    ∀ fuel i sleeps reqs : Nat,
      (∀ k, k < fuel → attempts (i + k) = AttemptResult.connectionFault) →
      fetchGo attempts fuel i sleeps reqs =
        { result := FetchResult.ret none, sleeps := sleeps + fuel + 1, requests := reqs + fuel } := by
  intro fuel
  induction fuel with
  | zero => intro i sleeps reqs h; rfl
  | succ fuel ih =>
    intro i sleeps reqs h
    have h0 : attempts i = AttemptResult.connectionFault := by
      have := h 0 (by omega)
      simpa using this
    have hstep : fetchGo attempts (fuel + 1) i sleeps reqs =
        fetchGo attempts fuel (i + 1) (sleeps + 1) (reqs + 1) := by
      simp [fetchGo, h0]
    rw [hstep, ih (i + 1) (sleeps + 1) (reqs + 1) (fun k hk => by
      have := h (k + 1) (by omega)
      rwa [show i + (k + 1) = i + 1 + k by omega] at this)]
    simp only [FetchOutput.mk.injEq]
    exact ⟨trivial, by omega, by omega⟩

/-- Claim C7: when the remote responds 404 on the first attempt, the
fetcher returns None (the absence outcome) at once: one network
request, no retries, no cooldown sleeps. -/
theorem c7_not_found_returns_immediately (attempts : Nat → AttemptResult) (mr : Nat)
    (hmr : 0 < mr) (hs he : Bool) (sl : Option Json)
    (h0 : attempts 0 = AttemptResult.response 404 hs he sl) :
    scrape_hltb_game attempts mr =
      { result := FetchResult.ret none, sleeps := 0, requests := 1 } :=
  fetch_404_first attempts mr hmr hs he sl h0

/-- Witness for C7 at a concrete attempt oracle. -/
theorem c7_witness :
    scrape_hltb_game (fun _ => AttemptResult.response 404 false false none) 3 =
      { result := FetchResult.ret none, sleeps := 0, requests := 1 } :=
  c7_not_found_returns_immediately (fun _ => AttemptResult.response 404 false false none) 3
    (by decide) false false none rfl

/-- Claim C4 is false on the code: with max_retries=3 and every attempt
a connectivity fault, the fetcher sleeps the cooldown 4 times, not 3:
once after each failed attempt and once more after the loop, before
returning None. -/
theorem c4_counterexample :
    (scrape_hltb_game (fun _ => AttemptResult.connectionFault) 3).sleeps = 4 ∧
    (scrape_hltb_game (fun _ => AttemptResult.connectionFault) 3).sleeps ≠ 3 :=
  ⟨rfl, by decide⟩

/-- Claim C4 amended: for every id for which every attempt raises a
connectivity or timeout fault, the fetcher sleeps cooldown_seconds
exactly max_retries + 1 times (one per failed attempt plus a final
pause) and then returns None, the exhaustion outcome. -/
theorem c4_amended_sleeps_retries_plus_one (attempts : Nat → AttemptResult) (mr : Nat)
    (hall : ∀ i, i < mr → attempts i = AttemptResult.connectionFault) :
    scrape_hltb_game attempts mr =
      { result := FetchResult.ret none, sleeps := mr + 1, requests := mr } := by
  unfold scrape_hltb_game
  rw [fetchGo_all_faults attempts mr 0 0 0 (fun k hk => by simpa using hall k hk)]
  simp

/-- Witness for the amended C4 with two all-fault attempts. -/
theorem c4_witness :
    scrape_hltb_game (fun _ => AttemptResult.connectionFault) 2 =
      { result := FetchResult.ret none, sleeps := 3, requests := 2 } :=
  c4_amended_sleeps_retries_plus_one (fun _ => AttemptResult.connectionFault) 2
    (fun _ _ => rfl)

/-- Claim C6 is false on the code: the caller cannot distinguish the
absence outcome from the exhausted-retries outcome, because the fetcher
returns the same value, None, in both cases: a run whose first attempt
is an authoritative 404 and a run whose every attempt faults produce
identical results. -/
theorem c6_counterexample :
    (scrape_hltb_game (fun _ => AttemptResult.response 404 true true none) 3).result =
      (scrape_hltb_game (fun _ => AttemptResult.connectionFault) 3).result :=
  rfl

/-- Claim C6 amended: the fetcher returns a decoded record or the single
value None (or propagates a parse exception); both the absence case and
the exhausted-retries case return None, so the caller cannot tell them
apart. -/
theorem c6_amended_absence_equals_exhaustion (a1 a2 : Nat → AttemptResult) (m1 m2 : Nat)
    (h1 : 0 < m1) (hs he : Bool) (sl : Option Json)
    (h404 : a1 0 = AttemptResult.response 404 hs he sl)
    (hall : ∀ i, i < m2 → a2 i = AttemptResult.connectionFault) :
    (scrape_hltb_game a1 m1).result = FetchResult.ret none ∧
    (scrape_hltb_game a2 m2).result = FetchResult.ret none := by
  constructor
  · rw [fetch_404_first a1 m1 h1 hs he sl h404]
  · unfold scrape_hltb_game
    rw [fetchGo_all_faults a2 m2 0 0 0 (fun k hk => by simpa using hall k hk)]

/-- Witness for the amended C6 at concrete oracles. -/
theorem c6_witness :
    (scrape_hltb_game (fun _ => AttemptResult.response 404 true true none) 3).result =
      FetchResult.ret none ∧
    (scrape_hltb_game (fun _ => AttemptResult.connectionFault) 2).result =
      FetchResult.ret none :=
  c6_amended_absence_equals_exhaustion (fun _ => AttemptResult.response 404 true true none)
    (fun _ => AttemptResult.connectionFault) 3 2 (by decide) true true none rfl
    (fun _ _ => rfl)

/-- Claim C3 is false on the code: the except clause catches only
ConnectionError and Timeout, so when the body holds both markers but
the extracted slice does not parse (json.loads raises), the exception
propagates to the caller instead of an Absent return: the fetch result
is an escaped exception, not the None return. -/
theorem c3_counterexample :
    (scrape_hltb_game (fun _ => AttemptResult.response 200 true true none) 3).result =
      FetchResult.exn ∧
    (scrape_hltb_game (fun _ => AttemptResult.response 200 true true none) 3).result ≠
      FetchResult.ret none := by
  refine ⟨rfl, ?_⟩
  intro h
  exact FetchResult.noConfusion h

/-- Claim C3 amended: a first attempt whose status is not 404 and whose
body holds both markers, but whose slice fails to parse or whose parsed
structure lacks the nested record path, makes the fetch raise the parse
exception to the caller after one request, zero sleeps and zero
retries; only a 404 or a missing marker yields the Absent (None)
return. -/
theorem c3_amended_parse_error_raises (attempts : Nat → AttemptResult) (mr : Nat)
    (hmr : 0 < mr) (st : Nat) (sl : Option Json)
    (h0 : attempts 0 = AttemptResult.response st true true sl) (hst : st ≠ 404)
    (hbad : sl = none ∨ ∃ j, sl = some j ∧ extractGameData j = none) :
    scrape_hltb_game attempts mr =
      { result := FetchResult.exn, sleeps := 0, requests := 1 } := by
  obtain ⟨k, rfl⟩ : ∃ k, mr = k + 1 := ⟨mr - 1, by omega⟩
  unfold scrape_hltb_game
  rcases hbad with rfl | ⟨j, rfl, hj⟩
  · simp [fetchGo, h0, processResponse, hst]
  · simp [fetchGo, h0, processResponse, hst, hj]

/-- Witness for the amended C3: the slice parses to a value without the
nested record path. -/
theorem c3_witness :
    scrape_hltb_game (fun _ => AttemptResult.response 200 true true (some Json.null)) 3 =
      { result := FetchResult.exn, sleeps := 0, requests := 1 } :=
  c3_amended_parse_error_raises (fun _ => AttemptResult.response 200 true true (some Json.null))
    3 (by decide) 200 (some Json.null) rfl (by decide) (Or.inr ⟨Json.null, rfl, rfl⟩)

theorem pyDelStep_obj (fs : List (String × Json)) (c : String) :
    pyDelStep (Json.obj fs) c = some (Json.obj (fs.filter (fun p => p.1 != c))) := by
  by_cases hany : fs.any (fun p => p.1 == c) = true
  · simp [pyDelStep, pyIn, hany]
  · have hself : fs.filter (fun p => p.1 != c) = fs := by
      refine List.filter_eq_self.mpr ?_
      intro a ha
      rcases Bool.eq_false_or_eq_true (a.1 == c) with hb | hb
      · exact absurd (List.any_eq_true.mpr ⟨a, ha, hb⟩) hany
      · simp [bne, hb]
    simp [pyDelStep, pyIn, hany, hself]

theorem stripLoop_obj (fs : List (String × Json)) (c1 c2 : String) :
    stripLoop (Json.obj fs) [c1, c2] =
      some (Json.obj ((fs.filter (fun p => p.1 != c1)).filter (fun p => p.1 != c2))) := by
  simp [stripLoop, pyDelStep_obj]

theorem stripLoop_obj_source (gd : Json) (c1 c2 : String) (pairs : List (String × Json))
    (h : stripLoop gd [c1, c2] = some (Json.obj pairs)) :
    ∃ fs, gd = Json.obj fs := by
  cases gd with
  | obj fs => exact ⟨fs, rfl⟩
  | null => simp [stripLoop, pyDelStep, pyIn] at h
  | bool b => simp [stripLoop, pyDelStep, pyIn] at h
  | num n => simp [stripLoop, pyDelStep, pyIn] at h
  | str s =>
    exfalso
    by_cases h1 : subAux c1.data s.data = true
    · simp [stripLoop, pyDelStep, pyIn, h1] at h
    · by_cases h2 : subAux c2.data s.data = true
      · simp [stripLoop, pyDelStep, pyIn, h1, h2] at h
      · simp [stripLoop, pyDelStep, pyIn, h1, h2] at h
  | arr xs =>
    exfalso
    by_cases h1 : xs.any (fun x => match x with | Json.str s => s == c1 | _ => false) = true
    · simp [stripLoop, pyDelStep, pyIn, h1] at h
    · by_cases h2 : xs.any (fun x => match x with | Json.str s => s == c2 | _ => false) = true
      · simp [stripLoop, pyDelStep, pyIn, h1, h2] at h
      · simp [stripLoop, pyDelStep, pyIn, h1, h2] at h

theorem processResponse_ret_some (st : Nat) (hs he : Bool) (sl : Option Json) (v : Json)
    (h : processResponse st hs he sl = FetchResult.ret (some v)) :
    ∃ j, sl = some j ∧ ∃ gd, extractGameData j = some gd ∧
      stripLoop gd ["individuality", "relationships"] = some v := by
  by_cases hst : st = 404
  · exact absurd h (by simp [processResponse, hst])
  by_cases hmk : (hs && he) = true
  · cases sl with
    | none => exact absurd h (by simp [processResponse, hst, hmk])
    | some data =>
      cases hgd : extractGameData data with
      | none => exact absurd h (by simp [processResponse, hst, hmk, hgd])
      | some gd =>
        cases hstrip : stripLoop gd ["individuality", "relationships"] with
        | none => exact absurd h (by simp [processResponse, hst, hmk, hgd, hstrip])
        | some r =>
          have hrv : r = v := by
            have h2 := h
            simp [processResponse, hst, hmk, hgd, hstrip] at h2
            exact h2
          exact ⟨data, rfl, gd, hgd, by rw [hstrip, hrv]⟩
  · exact absurd h (by simp [processResponse, hst, hmk])

theorem fetchGo_ret_some (attempts : Nat → AttemptResult) (v : Json) :
    ∀ fuel i sleeps reqs : Nat,
      (fetchGo attempts fuel i sleeps reqs).result = FetchResult.ret (some v) →
      ∃ k, k < fuel ∧ ∃ st hs he sl, attempts (i + k) = AttemptResult.response st hs he sl ∧
        processResponse st hs he sl = FetchResult.ret (some v) := by
  intro fuel
  induction fuel with
  | zero =>
    intro i sleeps reqs h
    exact absurd h (by simp [fetchGo])
  | succ fuel ih =>
    intro i sleeps reqs h
    cases ha : attempts i with
    | connectionFault =>
      have hstep : fetchGo attempts (fuel + 1) i sleeps reqs =
          fetchGo attempts fuel (i + 1) (sleeps + 1) (reqs + 1) := by
        simp [fetchGo, ha]
      rw [hstep] at h
      obtain ⟨k, hk, st, hs, he, sl, hatt, hpr⟩ := ih (i + 1) (sleeps + 1) (reqs + 1) h
      refine ⟨k + 1, by omega, st, hs, he, sl, ?_, hpr⟩
      rwa [show i + (k + 1) = i + 1 + k by omega]
    | response st hs he sl =>
      have heq : (fetchGo attempts (fuel + 1) i sleeps reqs).result =
          processResponse st hs he sl := by
        simp [fetchGo, ha]
      rw [heq] at h
      exact ⟨0, by omega, st, hs, he, sl, by simpa using ha, h⟩

/-- Claim C9: every record dict returned by a Found fetch contains
neither the key individuality nor the key relationships, and it is
exactly the record payload of the successful attempt with those two
keys removed and every other key-value pair unchanged (in order). -/
theorem c9_found_record_strips_metadata (attempts : Nat → AttemptResult) (mr : Nat)
    (pairs : List (String × Json))
    (h : (scrape_hltb_game attempts mr).result = FetchResult.ret (some (Json.obj pairs))) :
    (∀ p ∈ pairs, p.1 ≠ "individuality" ∧ p.1 ≠ "relationships") ∧
    ∃ k st hs he j fields, k < mr ∧
      attempts k = AttemptResult.response st hs he (some j) ∧
      extractGameData j = some (Json.obj fields) ∧
      pairs = (fields.filter (fun p => p.1 != "individuality")).filter
        (fun p => p.1 != "relationships") := by
  obtain ⟨k, hk, st, hs, he, sl, hatt, hpr⟩ :=
    fetchGo_ret_some attempts (Json.obj pairs) mr 0 0 0 h
  obtain ⟨j, rfl, gd, hgd, hstrip⟩ :=
    processResponse_ret_some st hs he sl (Json.obj pairs) hpr
  obtain ⟨fs, rfl⟩ := stripLoop_obj_source gd "individuality" "relationships" pairs hstrip
  rw [stripLoop_obj] at hstrip
  have hpairs : pairs = (fs.filter (fun p => p.1 != "individuality")).filter
      (fun p => p.1 != "relationships") := by
    have h2 := hstrip
    injection h2 with h3
    injection h3 with h4
    exact h4.symm
  constructor
  · intro p hp
    rw [hpairs] at hp
    have hp2 := List.mem_filter.mp hp
    have hp1 := List.mem_filter.mp hp2.1
    constructor
    · simpa using hp1.2
    · simpa using hp2.2
  · exact ⟨k, st, hs, he, j, fs, hk, by simpa using hatt, hgd, hpairs⟩

/-- Witness for C9: a full concrete page payload whose record carries
both metadata keys next to one ordinary field. -/
theorem c9_witness :
    (∀ p ∈ [(("name" : String), Json.str "X")],
      p.1 ≠ "individuality" ∧ p.1 ≠ "relationships") ∧
    ∃ k st hs he j fields, k < 3 ∧
      (fun _ => AttemptResult.response 200 true true (some c9Payload)) k =
        AttemptResult.response st hs he (some j) ∧
      extractGameData j = some (Json.obj fields) ∧
      [(("name" : String), Json.str "X")] =
        (fields.filter (fun p => p.1 != "individuality")).filter
          (fun p => p.1 != "relationships") :=
  c9_found_record_strips_metadata
    (fun _ => AttemptResult.response 200 true true (some c9Payload)) 3
    [("name", Json.str "X")] rfl
